import Mathlib

/-!
Verification of the Geodesic Bearing & Orientation Fusion Engine of the
AR destination-pointer app (`src/app.js`).

Embedding conventions:
* JavaScript floating-point numbers are modelled as exact numbers: the
  heading filter and its angle arithmetic (which use only `+ - * %` and
  comparisons) are embedded over `ℚ`, so every definition is executable;
  the geodesy and projection code (which use `Math.sin/cos/atan2/sqrt`)
  are embedded over `ℝ`.
* The JavaScript remainder operator `%` truncates the quotient toward
  zero (`x % y = x - y * trunc (x / y)`); it is embedded as `jsMod`
  (over `ℚ`) and `jsModR` (over `ℝ`).
* `Math.atan2` is embedded as `atan2` below, following the JavaScript
  specification branch for branch (`atan2 0 0 = 0`, `atan2 y 0 = ±π/2`
  for `y ≠ 0`, `atan2 0 x = π` for `x < 0`); real numbers have a single
  zero, which is identified with JavaScript's `+0`.
-/

open Real

/-! ## JavaScript remainder, rational version (used by the heading filter) -/

/-- Truncation toward zero, as used by the JavaScript `%` operator. -/
def jsTrunc (x : ℚ) : ℤ :=
  if 0 ≤ x then ⌊x⌋ else ⌈x⌉

/-- JavaScript remainder `x % y` over `ℚ`: `x - y * trunc (x / y)`. -/
def jsMod (x y : ℚ) : ℚ :=
  x - y * jsTrunc (x / y)

theorem jsMod_eq_floor (x y : ℚ) (hx : 0 ≤ x) (hy : 0 < y) :
    jsMod x y = x - y * ⌊x / y⌋ := by
  unfold jsMod jsTrunc
  rw [if_pos (by positivity)]

theorem jsMod_nonneg (x y : ℚ) (hx : 0 ≤ x) (hy : 0 < y) :
    0 ≤ jsMod x y := by
  rw [jsMod_eq_floor x y hx hy]
  have h := Int.floor_le (x / y)
  have : y * (⌊x / y⌋ : ℚ) ≤ y * (x / y) := by
    exact mul_le_mul_of_nonneg_left h (le_of_lt hy)
  rw [mul_div_cancel₀ x (ne_of_gt hy)] at this
  linarith

theorem jsMod_lt (x y : ℚ) (hx : 0 ≤ x) (hy : 0 < y) :
    jsMod x y < y := by
  rw [jsMod_eq_floor x y hx hy]
  have h := Int.lt_floor_add_one (x / y)
  have : y * (x / y) < y * ((⌊x / y⌋ : ℚ) + 1) := by
    exact mul_lt_mul_of_pos_left h hy
  rw [mul_div_cancel₀ x (ne_of_gt hy)] at this
  nlinarith

/-- Evaluation of `jsMod x 360` when the integer quotient is known. -/
theorem jsMod_eval (x : ℚ) (n : ℤ) (hx : 0 ≤ x)
    (h1 : (n : ℚ) * 360 ≤ x) (h2 : x < ((n : ℚ) + 1) * 360) :
    jsMod x 360 = x - 360 * n := by
  rw [jsMod_eq_floor x 360 hx (by norm_num)]
  have hf : ⌊x / 360⌋ = n := by
    rw [Int.floor_eq_iff]
    constructor
    · rw [le_div_iff₀ (by norm_num : (0:ℚ) < 360)]; linarith
    · rw [div_lt_iff₀ (by norm_num : (0:ℚ) < 360)]; linarith
  rw [hf]

/-! ## Heading filter (`handleOrientation`, `src/app.js` lines 208-254)

App state touched by `handleOrientation`: the smoothed orientation
angles `deviceOrientation.{alpha,beta,gamma}` and the smoothed compass
heading `compassHeading` (initialized to `0` at line 29). -/

/-- Initial value of the module-level `compassHeading` variable
(`src/app.js` line 29). -/
def initialCompassHeading : ℚ := 0

/-- One exponential-smoothing step
`prev + (event - prev) * smoothingFactor` with the code's
`smoothingFactor = 0.2` (`src/app.js` lines 215-220), as applied to
`deviceOrientation.alpha`. -/
def smoothAngle (prev event : ℚ) : ℚ :=
  prev + (event - prev) * 0.2

/-- Candidate compass heading chosen by `handleOrientation`
(`src/app.js` lines 222-230): `event.webkitCompassHeading` when that
field is truthy (present and non-zero), otherwise
`360 - deviceOrientation.alpha`, where `deviceOrientation.alpha` has
already been updated to the smoothed alpha at line 218. -/
def newCompassHeadingOf (webkitCompassHeading : Option ℚ)
    (prevAlpha eventAlpha : ℚ) : ℚ :=
  match webkitCompassHeading with
  | some w => if w = 0 then 360 - smoothAngle prevAlpha eventAlpha else w
  | none => 360 - smoothAngle prevAlpha eventAlpha

/-- Wrap-corrected signed difference between the candidate heading and
the current heading (`src/app.js` lines 235-237):
`diff = newCompassHeading - compassHeading`, then
`if (diff > 180) diff -= 360; if (diff < -180) diff += 360;`. -/
def wrapDiff (candidate current : ℚ) : ℚ :=
  let d := candidate - current
  let d2 := if d > 180 then d - 360 else d
  if d2 < -180 then d2 + 360 else d2

/-- Compass-heading update (`src/app.js` line 239):
`compassHeading = (compassHeading + diff * smoothingFactor + 360) % 360`. -/
def ingestHeading (current candidate smoothingFactor : ℚ) : ℚ :=
  jsMod (current + wrapDiff candidate current * smoothingFactor + 360) 360

theorem wrapDiff_mem (candidate current : ℚ)
    (h1 : -360 < candidate - current) (h2 : candidate - current ≤ 360) :
    -180 ≤ wrapDiff candidate current ∧ wrapDiff candidate current ≤ 180 := by
  simp only [wrapDiff]
  split_ifs with ha hb hc <;> constructor <;> linarith

/-- With smoothing factor 1 the update is pass-through: the new state is
exactly the candidate, for any state and candidate in `[0, 360)`. -/
theorem ingestHeading_one (current candidate : ℚ)
    (hcur0 : 0 ≤ current) (hcur1 : current < 360)
    (hc0 : 0 ≤ candidate) (hc1 : candidate < 360) :
    ingestHeading current candidate 1 = candidate := by
  simp only [ingestHeading, wrapDiff]
  split_ifs with ha hb hc
  · linarith
  · -- diff > 180: update amount is candidate - current - 360
    have : current + (candidate - current - 360) * 1 + 360 = candidate := by ring
    rw [this, jsMod_eval candidate 0 hc0 (by push_cast; linarith)
      (by push_cast; linarith)]
    push_cast; ring
  · -- diff < -180: update amount is candidate - current + 360
    have : current + (candidate - current + 360) * 1 + 360 = candidate + 720 := by
      ring
    rw [this, jsMod_eval (candidate + 720) 2 (by linarith)
      (by push_cast; linarith) (by push_cast; linarith)]
    push_cast; ring
  · -- no wrap correction
    have : current + (candidate - current) * 1 + 360 = candidate + 360 := by ring
    rw [this, jsMod_eval (candidate + 360) 1 (by linarith)
      (by push_cast; linarith) (by push_cast; linarith)]
    push_cast; ring

/-- The updated heading stays in `[0, 360)` for any prior state in
`[0, 360)`, candidate in `[0, 360]` and smoothing factor in `(0, 1]`. -/
theorem ingestHeading_mem (current candidate f : ℚ)
    (hcur0 : 0 ≤ current) (hcur1 : current < 360)
    (hc0 : 0 ≤ candidate) (hc1 : candidate ≤ 360)
    (hf0 : 0 < f) (hf1 : f ≤ 1) :
    0 ≤ ingestHeading current candidate f ∧
      ingestHeading current candidate f < 360 := by
  obtain ⟨hd1, hd2⟩ := wrapDiff_mem candidate current (by linarith) (by linarith)
  have hprod1 : -180 ≤ wrapDiff candidate current * f := by nlinarith
  have hprod2 : wrapDiff candidate current * f ≤ 180 := by nlinarith
  have hx : 0 ≤ current + wrapDiff candidate current * f + 360 := by linarith
  unfold ingestHeading
  refine ⟨jsMod_nonneg _ 360 hx (by norm_num), jsMod_lt _ 360 hx (by norm_num)⟩

/-! ## JavaScript remainder and `Math.atan2` over `ℝ` -/

/-- Truncation toward zero over `ℝ` (JavaScript `%`). -/
noncomputable def jsTruncR (x : ℝ) : ℤ :=
  if 0 ≤ x then ⌊x⌋ else ⌈x⌉

/-- JavaScript remainder `x % y` over `ℝ`. -/
noncomputable def jsModR (x y : ℝ) : ℝ :=
  x - y * jsTruncR (x / y)

/-- Evaluation of `jsModR x 360` when the integer quotient is known. -/
theorem jsModR_eval (x : ℝ) (n : ℤ) (hx : 0 ≤ x)
    (h1 : (n : ℝ) * 360 ≤ x) (h2 : x < ((n : ℝ) + 1) * 360) :
    jsModR x 360 = x - 360 * n := by
  unfold jsModR jsTruncR
  rw [if_pos (by positivity)]
  have hf : ⌊x / 360⌋ = n := by
    rw [Int.floor_eq_iff]
    constructor
    · rw [le_div_iff₀ (by norm_num : (0:ℝ) < 360)]; linarith
    · rw [div_lt_iff₀ (by norm_num : (0:ℝ) < 360)]; linarith
  rw [hf]

/-- `Math.atan2 y x`, following the ECMAScript specification (with the
single real `0` playing the role of `+0`). -/
noncomputable def atan2 (y x : ℝ) : ℝ :=
  if 0 < x then Real.arctan (y / x)
  else if x < 0 then
    (if 0 ≤ y then Real.arctan (y / x) + Real.pi
     else Real.arctan (y / x) - Real.pi)
  else
    (if 0 < y then Real.pi / 2
     else if y < 0 then -(Real.pi / 2)
     else 0)

theorem atan2_zero_zero : atan2 0 0 = 0 := by
  simp [atan2]

theorem atan2_zero_one : atan2 0 1 = 0 := by
  simp [atan2, Real.arctan_zero]

theorem atan2_zero_neg (x : ℝ) (hx : x < 0) : atan2 0 x = Real.pi := by
  unfold atan2
  rw [if_neg (by linarith), if_pos hx, if_pos le_rfl]
  simp [Real.arctan_zero]

theorem atan2_pos_right (y x : ℝ) (hx : 0 < x) :
    atan2 y x = Real.arctan (y / x) := by
  unfold atan2
  rw [if_pos hx]

/-! ## Geodesy (`calculateDistance` and `calculateBearing`,
`src/app.js` lines 257-285) -/

/-- The haversine intermediate `a` of `calculateDistance`
(`src/app.js` lines 264-266), with `φ1 = lat1·π/180`,
`φ2 = lat2·π/180`, `Δφ = (lat2-lat1)·π/180`, `Δλ = (lon2-lon1)·π/180`. -/
noncomputable def haversineA (lat1 lon1 lat2 lon2 : ℝ) : ℝ :=
  Real.sin ((lat2 - lat1) * Real.pi / 180 / 2) *
      Real.sin ((lat2 - lat1) * Real.pi / 180 / 2) +
    Real.cos (lat1 * Real.pi / 180) * Real.cos (lat2 * Real.pi / 180) *
      Real.sin ((lon2 - lon1) * Real.pi / 180 / 2) *
      Real.sin ((lon2 - lon1) * Real.pi / 180 / 2)

/-- Haversine great-circle distance (`src/app.js` lines 257-270):
`R * c` with `R = 6371e3` and
`c = 2 * atan2 (sqrt a) (sqrt (1 - a))`. -/
noncomputable def calculateDistance (lat1 lon1 lat2 lon2 : ℝ) : ℝ :=
  6371000 *
    (2 * atan2 (Real.sqrt (haversineA lat1 lon1 lat2 lon2))
      (Real.sqrt (1 - haversineA lat1 lon1 lat2 lon2)))

/-- Initial bearing (`src/app.js` lines 273-285):
`θ = atan2 (sin Δλ · cos φ2) (cos φ1 · sin φ2 - sin φ1 · cos φ2 · cos Δλ)`,
returned as `(θ·180/π + 360) % 360`. -/
noncomputable def calculateBearing (lat1 lon1 lat2 lon2 : ℝ) : ℝ :=
  jsModR
    (atan2
        (Real.sin ((lon2 - lon1) * Real.pi / 180) *
          Real.cos (lat2 * Real.pi / 180))
        (Real.cos (lat1 * Real.pi / 180) * Real.sin (lat2 * Real.pi / 180) -
          Real.sin (lat1 * Real.pi / 180) * Real.cos (lat2 * Real.pi / 180) *
            Real.cos ((lon2 - lon1) * Real.pi / 180)) *
        180 / Real.pi +
      360)
    360

theorem haversineA_symm (lat1 lon1 lat2 lon2 : ℝ) :
    haversineA lat1 lon1 lat2 lon2 = haversineA lat2 lon2 lat1 lon1 := by
  unfold haversineA
  have e1 : (lat2 - lat1) * Real.pi / 180 / 2 =
      -((lat1 - lat2) * Real.pi / 180 / 2) := by ring
  have e2 : (lon2 - lon1) * Real.pi / 180 / 2 =
      -((lon1 - lon2) * Real.pi / 180 / 2) := by ring
  rw [e1, e2, Real.sin_neg, Real.sin_neg]
  ring

theorem haversineA_self (lat lon : ℝ) : haversineA lat lon lat lon = 0 := by
  unfold haversineA
  simp [Real.sin_zero]

theorem calculateDistance_symm (lat1 lon1 lat2 lon2 : ℝ) :
    calculateDistance lat1 lon1 lat2 lon2 =
      calculateDistance lat2 lon2 lat1 lon1 := by
  unfold calculateDistance
  rw [haversineA_symm]

theorem calculateDistance_self (lat lon : ℝ) :
    calculateDistance lat lon lat lon = 0 := by
  unfold calculateDistance
  rw [haversineA_self]
  simp [atan2_zero_one]

/-- At coincident observer and target the bearing code returns exactly
`0`: both `atan2` arguments vanish, JavaScript's `atan2 0 0 = 0`, and
`(0 + 360) % 360 = 0`. -/
theorem calculateBearing_self (lat lon : ℝ) :
    calculateBearing lat lon lat lon = 0 := by
  unfold calculateBearing
  rw [show (lon - lon) * Real.pi / 180 = 0 by ring, Real.sin_zero,
    Real.cos_zero, zero_mul, mul_one,
    show Real.cos (lat * Real.pi / 180) * Real.sin (lat * Real.pi / 180) -
        Real.sin (lat * Real.pi / 180) * Real.cos (lat * Real.pi / 180) = 0
      by ring,
    atan2_zero_zero, zero_mul, zero_div, zero_add,
    jsModR_eval 360 1 (by norm_num) (by norm_num) (by norm_num)]
  norm_num

/-! ## Relative-bearing normalization loop
(`src/app.js` lines 459-460):
`while (relativeBearing > 180) relativeBearing -= 360;`
`while (relativeBearing < -180) relativeBearing += 360;` -/

/-- First normalization loop: subtract 360 while the value exceeds 180. -/
noncomputable def norm180sub (r : ℝ) : ℝ :=
  if 180 < r then norm180sub (r - 360) else r
termination_by (⌈(r - 180) / 360⌉).toNat
decreasing_by
  have h1 : (0 : ℝ) < (r - 180) / 360 := by
    apply div_pos <;> [linarith; norm_num]
  have h2 : 0 < ⌈(r - 180) / 360⌉ := Int.ceil_pos.mpr h1
  have h3 : ⌈(r - 360 - 180) / 360⌉ = ⌈(r - 180) / 360⌉ - 1 := by
    rw [show (r - 360 - 180) / 360 = (r - 180) / 360 - 1 by ring,
      Int.ceil_sub_one]
  rw [h3]
  omega

/-- Second normalization loop: add 360 while the value is below -180. -/
noncomputable def norm180add (r : ℝ) : ℝ :=
  if r < -180 then norm180add (r + 360) else r
termination_by (⌈(-180 - r) / 360⌉).toNat
decreasing_by
  have h1 : (0 : ℝ) < (-180 - r) / 360 := by
    apply div_pos <;> [linarith; norm_num]
  have h2 : 0 < ⌈(-180 - r) / 360⌉ := Int.ceil_pos.mpr h1
  have h3 : ⌈(-180 - (r + 360)) / 360⌉ = ⌈(-180 - r) / 360⌉ - 1 := by
    rw [show (-180 - (r + 360)) / 360 = (-180 - r) / 360 - 1 by ring,
      Int.ceil_sub_one]
  rw [h3]
  omega

/-- The two normalization loops in source order. -/
noncomputable def normalize180 (r : ℝ) : ℝ :=
  norm180add (norm180sub r)

theorem norm180sub_of_le (r : ℝ) (h : r ≤ 180) : norm180sub r = r := by
  rw [norm180sub]
  exact if_neg (by linarith)

theorem norm180sub_step (r : ℝ) (h : 180 < r) :
    norm180sub r = norm180sub (r - 360) := by
  rw [norm180sub]
  exact if_pos h

theorem norm180add_of_ge (r : ℝ) (h : -180 ≤ r) : norm180add r = r := by
  rw [norm180add]
  exact if_neg (by linarith)

theorem norm180add_step (r : ℝ) (h : r < -180) :
    norm180add r = norm180add (r + 360) := by
  rw [norm180add]
  exact if_pos h

/-- For an input in `(-360, 360)` the normalized value lies in the
closed interval `[-180, 180]` (each loop body runs at most once). -/
theorem normalize180_mem (r : ℝ) (h1 : -360 < r) (h2 : r < 360) :
    -180 ≤ normalize180 r ∧ normalize180 r ≤ 180 := by
  unfold normalize180
  rcases le_or_lt r 180 with hs | hs
  · rw [norm180sub_of_le r hs]
    rcases le_or_lt (-180) r with ha | ha
    · rw [norm180add_of_ge r ha]
      exact ⟨ha, hs⟩
    · rw [norm180add_step r ha, norm180add_of_ge _ (by linarith)]
      constructor <;> linarith
  · rw [norm180sub_step r hs, norm180sub_of_le _ (by linarith),
      norm180add_of_ge _ (by linarith)]
    constructor <;> linarith

/-! ## Bearing projector (`updateMarkerPosition`,
`src/app.js` lines 444-502) -/

/-- A geographic point as used by the app (`currentLocation`, `TARGET`):
latitude and longitude in degrees, altitude in meters. -/
structure GeoPoint where
  lat : ℝ
  lng : ℝ
  alt : ℝ

/-- The fixed target (`src/app.js` lines 2-6). -/
noncomputable def TARGET : GeoPoint :=
  { lat := 69.705561, lng := 18.832721, alt := 488.8 }

/-- A Three.js position vector (`destinationMarker.position`). -/
structure Vec3 where
  x : ℝ
  y : ℝ
  z : ℝ

/-- The engine state read and written by `updateMarkerPosition`:
the last location fix (`currentLocation`, `null` before the first fix),
the smoothed compass heading (`compassHeading`, starts at `0`; the code
has no separate "uninitialized" marker for it), whether the Three.js
marker object exists (`destinationMarker`), and the marker's current
position. -/
structure AppState where
  currentLocation : Option GeoPoint
  compassHeading : ℝ
  hasMarker : Bool
  markerPos : Vec3

/-- Maximum elevation magnitude (`src/app.js` line 481):
`maxElevation = Math.PI / 6`. -/
noncomputable def maxElevation : ℝ := Real.pi / 6

/-- Clamped elevation angle (`src/app.js` lines 480-482):
`Math.max(-maxElevation, Math.min(maxElevation, Math.atan2(altitudeDiff, distance)))`. -/
noncomputable def clampedElevation (altitudeDiff distance : ℝ) : ℝ :=
  max (-maxElevation) (min maxElevation (atan2 altitudeDiff distance))

/-- Relative bearing computed by `updateMarkerPosition`
(`src/app.js` lines 448-460): bearing to `TARGET` minus the compass
heading, passed through the normalization loops. -/
noncomputable def relativeBearingOut (loc : GeoPoint) (heading : ℝ) : ℝ :=
  normalize180 (calculateBearing loc.lat loc.lng TARGET.lat TARGET.lng - heading)

/-- Raw (pre-smoothing) marker placement computed by
`updateMarkerPosition` (`src/app.js` lines 462-483), on a circle of
radius 3: `x = radius·sin(angleRad)`, `z = -radius·cos(angleRad)`,
`y = radius·sin(clampedElevation)`. -/
noncomputable def rawMarkerVec (loc : GeoPoint) (heading : ℝ) : Vec3 :=
  { x := 3 * Real.sin (relativeBearingOut loc heading * Real.pi / 180)
    y := 3 * Real.sin (clampedElevation (TARGET.alt - loc.alt)
      (calculateDistance loc.lat loc.lng TARGET.lat TARGET.lng))
    z := -3 * Real.cos (relativeBearingOut loc heading * Real.pi / 180) }

/-- The pure numeric outputs of a projection pass, gathered as
`(bearing, relativeBearing, clampedElevation, horizontalDistance)`. -/
noncomputable def bearingResultOf (loc : GeoPoint) (heading : ℝ) :
    ℝ × ℝ × ℝ × ℝ :=
  (calculateBearing loc.lat loc.lng TARGET.lat TARGET.lng,
   relativeBearingOut loc heading,
   clampedElevation (TARGET.alt - loc.alt)
     (calculateDistance loc.lat loc.lng TARGET.lat TARGET.lng),
   calculateDistance loc.lat loc.lng TARGET.lat TARGET.lng)

/-- `updateMarkerPosition` (`src/app.js` lines 444-502): returns
unchanged state when `currentLocation` is `null` or the marker object
does not exist (line 445); otherwise moves the marker position 10% of
the way toward the freshly computed raw placement
(`smoothingFactor = 0.1`, lines 486-493). -/
noncomputable def updateMarkerPosition (s : AppState) : AppState :=
  match s.currentLocation, s.hasMarker with
  | some loc, true =>
    let raw := rawMarkerVec loc s.compassHeading
    let p := s.markerPos
    { s with markerPos :=
        { x := p.x + (raw.x - p.x) * 0.1
          y := p.y + (raw.y - p.y) * 0.1
          z := p.z + (raw.z - p.z) * 0.1 } }
  | _, _ => s

/-! ## Claims about the heading filter -/

/-- Claim C1: for every heading-filter state and candidate heading in
`[0, 360)`, ingesting with smoothing factor 1 moves the heading the
short way around the circle — the wrap-corrected delta has magnitude at
most 180 and the factor-1 update lands exactly on the candidate — and
ingesting 359° then 2° starting from the initial state with factor 1
yields 2°, never ~180°. -/
theorem spec_c1_heading_wrap_short_path :
    (∀ current candidate : ℚ, 0 ≤ current → current < 360 →
      0 ≤ candidate → candidate < 360 →
      -180 ≤ wrapDiff candidate current ∧ wrapDiff candidate current ≤ 180 ∧
        ingestHeading current candidate 1 = candidate) ∧
    ingestHeading (ingestHeading initialCompassHeading 359 1) 2 1 = 2 := by
  constructor
  · intro current candidate h1 h2 h3 h4
    obtain ⟨d1, d2⟩ :=
      wrapDiff_mem candidate current (by linarith) (by linarith)
    exact ⟨d1, d2, ingestHeading_one current candidate h1 h2 h3 h4⟩
  · have h1 : ingestHeading initialCompassHeading 359 1 = 359 :=
      ingestHeading_one 0 359 (by norm_num) (by norm_num) (by norm_num)
        (by norm_num)
    rw [h1]
    exact ingestHeading_one 359 2 (by norm_num) (by norm_num) (by norm_num)
      (by norm_num)

/-- Witness for C1 at state 10°, candidate 350°. -/
theorem spec_c1_witness :
    -180 ≤ wrapDiff 350 10 ∧ wrapDiff 350 10 ≤ 180 ∧
      ingestHeading 10 350 1 = 350 :=
  spec_c1_heading_wrap_short_path.1 10 350 (by norm_num) (by norm_num)
    (by norm_num) (by norm_num)

/-- Claim C2: the smoothed compass heading lies in `[0, 360)` at all
times — initially (the state starts at 0) and after every ingest, for
every prior state in `[0, 360)`, candidate in `[0, 360]` and smoothing
factor in `(0, 1]`. -/
theorem spec_c2_heading_range_invariant :
    (0 ≤ initialCompassHeading ∧ initialCompassHeading < 360) ∧
    ∀ current candidate f : ℚ, 0 ≤ current → current < 360 →
      0 ≤ candidate → candidate ≤ 360 → 0 < f → f ≤ 1 →
      0 ≤ ingestHeading current candidate f ∧
        ingestHeading current candidate f < 360 := by
  refine ⟨⟨le_refl 0, by norm_num [initialCompassHeading]⟩, ?_⟩
  intro current candidate f h1 h2 h3 h4 h5 h6
  exact ingestHeading_mem current candidate f h1 h2 h3 h4 h5 h6

/-- Witness for C2 at state 359°, candidate 2°, factor 0.2. -/
theorem spec_c2_witness :
    0 ≤ ingestHeading 359 2 0.2 ∧ ingestHeading 359 2 0.2 < 360 :=
  spec_c2_heading_range_invariant.2 359 2 0.2 (by norm_num) (by norm_num)
    (by norm_num) (by norm_num) (by norm_num) (by norm_num)

/-- Counterexample to C5: the code initializes `compassHeading` to 0
(line 29) and smooths the very first sample like any other, so with the
code's factor 0.2 a first candidate of 100° leaves the state at 20°,
not at the candidate. -/
theorem spec_c5_counterexample :
    ingestHeading initialCompassHeading 100 0.2 = 20 ∧ (20 : ℚ) ≠ 100 := by
  constructor
  · norm_num [ingestHeading, wrapDiff, jsMod, jsTrunc, initialCompassHeading]
  · norm_num

/-- Claim C5 (amended): the heading state is initialized to 0, not
seeded from the first sample; the first sample is smoothed like any
subsequent one, so after the first valid sample the state equals the
candidate only when the smoothing factor is 1 (for candidates in
`[0, 360)`), and with the code's factor 0.2 a first candidate of 100°
yields 20°. -/
theorem spec_c5_amended :
    (∀ candidate : ℚ, 0 ≤ candidate → candidate < 360 →
      ingestHeading initialCompassHeading candidate 1 = candidate) ∧
    ingestHeading initialCompassHeading 100 0.2 = 20 := by
  constructor
  · intro candidate h1 h2
    exact ingestHeading_one 0 candidate (by norm_num) (by norm_num) h1 h2
  · norm_num [ingestHeading, wrapDiff, jsMod, jsTrunc, initialCompassHeading]

/-- Witness for C5 (amended part) at candidate 42°. -/
theorem spec_c5_witness :
    ingestHeading initialCompassHeading 42 1 = 42 :=
  spec_c5_amended.1 42 (by norm_num) (by norm_num)

/-- Counterexample to C6: with no platform true-heading field, a prior
smoothed alpha of 0 and a raw sample alpha of 100, the code produces
`360 - (0 + (100 - 0)·0.2) = 340`, while the claimed formula
`(360 - rawYaw) mod 360` gives 260; moreover at raw alpha 0 the code
produces 360, while the claimed formula gives 0 (no `mod 360` is
applied). -/
theorem spec_c6_counterexample :
    newCompassHeadingOf none 0 100 = 340 ∧ jsMod (360 - 100) 360 = 260 ∧
      (340 : ℚ) ≠ 260 ∧
      newCompassHeadingOf none 0 0 = 360 ∧ jsMod (360 - 0) 360 = 0 := by
  refine ⟨by norm_num [newCompassHeadingOf, smoothAngle],
    by norm_num [jsMod, jsTrunc], by norm_num,
    by norm_num [newCompassHeadingOf, smoothAngle],
    by norm_num [jsMod, jsTrunc]⟩

/-- Claim C6 (amended): the candidate heading is the platform-native
true-heading field when it is present and non-zero; otherwise it is
`360 - smoothedAlpha`, where `smoothedAlpha` is the exponentially
smoothed alpha (factor 0.2) already updated with this sample's raw
alpha — not the raw alpha itself — and no `mod 360` is applied, so for
alphas in `[0, 360)` the fallback candidate lies in `(0, 360]`. -/
theorem spec_c6_amended :
    (∀ w prevAlpha eventAlpha : ℚ, w ≠ 0 →
      newCompassHeadingOf (some w) prevAlpha eventAlpha = w) ∧
    (∀ prevAlpha eventAlpha : ℚ,
      newCompassHeadingOf none prevAlpha eventAlpha =
        360 - (prevAlpha + (eventAlpha - prevAlpha) * 0.2)) ∧
    (∀ prevAlpha eventAlpha : ℚ, 0 ≤ prevAlpha → prevAlpha < 360 →
      0 ≤ eventAlpha → eventAlpha < 360 →
      0 < newCompassHeadingOf none prevAlpha eventAlpha ∧
        newCompassHeadingOf none prevAlpha eventAlpha ≤ 360) := by
  refine ⟨?_, ?_, ?_⟩
  · intro w pa ea hw
    simp [newCompassHeadingOf, hw]
  · intro pa ea
    rfl
  · intro pa ea h1 h2 h3 h4
    simp only [newCompassHeadingOf, smoothAngle]
    constructor <;> nlinarith

/-- Witness for C6 at a non-zero platform heading and at the fallback. -/
theorem spec_c6_witness :
    newCompassHeadingOf (some 77) 0 0 = 77 :=
  spec_c6_amended.1 77 0 0 (by norm_num)

/-! ## Claims about geodesy and normalization -/

/-- Counterexample to C8: at bearing 0° and heading 180° the
normalization loops leave the value at exactly -180, which is outside
the claimed half-open interval `(-180, 180]` (the loop conditions
`> 180` and `< -180` never move a value of -180). -/
theorem spec_c8_counterexample :
    normalize180 ((0 : ℝ) - 180) = -180 ∧
      (-180 : ℝ) ∉ Set.Ioc (-180 : ℝ) 180 := by
  constructor
  · unfold normalize180
    rw [norm180sub_of_le _ (by norm_num), norm180add_of_ge _ (by norm_num)]
    norm_num
  · norm_num

/-- Claim C8 (amended): for every bearing and heading in `[0, 360)` the
normalized relative bearing lies in the closed interval `[-180, 180]`
(both endpoints are reachable), and the normalization loops terminate —
each loop body runs at most once for such inputs. -/
theorem spec_c8_amended (bearing heading : ℝ)
    (hb0 : 0 ≤ bearing) (hb1 : bearing < 360)
    (hh0 : 0 ≤ heading) (hh1 : heading < 360) :
    -180 ≤ normalize180 (bearing - heading) ∧
      normalize180 (bearing - heading) ≤ 180 :=
  normalize180_mem _ (by linarith) (by linarith)

/-- Witness for C8 (amended) at bearing 0°, heading 180°. -/
theorem spec_c8_witness :
    -180 ≤ normalize180 ((0 : ℝ) - 180) ∧
      normalize180 ((0 : ℝ) - 180) ≤ 180 :=
  spec_c8_amended 0 180 (by norm_num) (by norm_num) (by norm_num)
    (by norm_num)

/-- Claim C9: the emitted elevation never exceeds the configured
maximum magnitude `π/6`; whenever the raw `atan2` exceeds the bound in
either direction the output is exactly `±maxElevation`; and at
altitude difference 10000 with horizontal distance 1 the raw value
strictly exceeds the bound, so the output equals exactly
`maxElevation` and differs from the raw `atan2` value. -/
theorem spec_c9_elevation_clamp :
    (∀ altitudeDiff distance : ℝ,
      |clampedElevation altitudeDiff distance| ≤ maxElevation) ∧
    (∀ altitudeDiff distance : ℝ,
      maxElevation < atan2 altitudeDiff distance →
        clampedElevation altitudeDiff distance = maxElevation) ∧
    (∀ altitudeDiff distance : ℝ,
      atan2 altitudeDiff distance < -maxElevation →
        clampedElevation altitudeDiff distance = -maxElevation) ∧
    maxElevation < atan2 10000 1 ∧
    clampedElevation 10000 1 = maxElevation ∧
    atan2 10000 1 ≠ maxElevation := by
  have hm : 0 ≤ maxElevation := by
    unfold maxElevation
    positivity
  have hbig : maxElevation < atan2 10000 1 := by
    have h1 : Real.arctan 1 < Real.arctan 10000 :=
      Real.arctan_strictMono (by norm_num)
    rw [Real.arctan_one] at h1
    rw [atan2_pos_right 10000 1 one_pos,
      show (10000 : ℝ) / 1 = 10000 by norm_num]
    unfold maxElevation
    linarith [Real.pi_pos]
  have hclamp : ∀ altitudeDiff distance : ℝ,
      maxElevation < atan2 altitudeDiff distance →
        clampedElevation altitudeDiff distance = maxElevation := by
    intro a d h
    unfold clampedElevation
    rw [min_eq_left (le_of_lt h), max_eq_right (by linarith)]
  refine ⟨?_, hclamp, ?_, hbig, hclamp 10000 1 hbig, ne_of_gt hbig⟩
  · intro a d
    rw [abs_le]
    constructor
    · exact le_max_left _ _
    · apply max_le (by linarith)
      exact min_le_left _ _
  · intro a d h
    unfold clampedElevation
    rw [min_eq_right (by unfold maxElevation at *; linarith [Real.pi_pos]),
      max_eq_left (le_of_lt h)]

/-- Witness for C9 at altitude difference 10000, horizontal distance 1. -/
theorem spec_c9_witness : clampedElevation 10000 1 = maxElevation :=
  spec_c9_elevation_clamp.2.1 10000 1 spec_c9_elevation_clamp.2.2.2.1

/-- Claim C10: the haversine distance is symmetric and zero on the
diagonal for all valid GeoPoints (latitude in `[-90, 90]`, longitude in
`[-180, 180]`). -/
theorem spec_c10_distance_symm_zero (a b : GeoPoint)
    (_ha1 : -90 ≤ a.lat) (_ha2 : a.lat ≤ 90)
    (_ha3 : -180 ≤ a.lng) (_ha4 : a.lng ≤ 180)
    (_hb1 : -90 ≤ b.lat) (_hb2 : b.lat ≤ 90)
    (_hb3 : -180 ≤ b.lng) (_hb4 : b.lng ≤ 180) :
    calculateDistance a.lat a.lng b.lat b.lng =
        calculateDistance b.lat b.lng a.lat a.lng ∧
      calculateDistance a.lat a.lng a.lat a.lng = 0 :=
  ⟨calculateDistance_symm a.lat a.lng b.lat b.lng,
   calculateDistance_self a.lat a.lng⟩

/-- Witness for C10 at the equator origin and a point at 45°N 90°E. -/
theorem spec_c10_witness :
    calculateDistance (GeoPoint.mk 0 0 0).lat (GeoPoint.mk 0 0 0).lng
          (GeoPoint.mk 45 90 0).lat (GeoPoint.mk 45 90 0).lng =
        calculateDistance (GeoPoint.mk 45 90 0).lat (GeoPoint.mk 45 90 0).lng
          (GeoPoint.mk 0 0 0).lat (GeoPoint.mk 0 0 0).lng ∧
      calculateDistance (GeoPoint.mk 0 0 0).lat (GeoPoint.mk 0 0 0).lng
        (GeoPoint.mk 0 0 0).lat (GeoPoint.mk 0 0 0).lng = 0 :=
  spec_c10_distance_symm_zero (GeoPoint.mk 0 0 0) (GeoPoint.mk 45 90 0)
    (by norm_num) (by norm_num) (by norm_num) (by norm_num)
    (by norm_num) (by norm_num) (by norm_num) (by norm_num)

/-- Claim C3 (amended): when the observer coincides with the target the
engine retains nothing — no previous bearing is stored anywhere — and
instead computes the bearing afresh: both `atan2` arguments vanish,
JavaScript's `atan2 0 0` is `0`, so the emitted bearing is the fixed
(arbitrary, due-north) value 0 and the emitted relative bearing is
`normalize180 (0 - heading)`, regardless of any earlier output. The
outputs are well-defined numbers, never NaN. -/
theorem spec_c3_amended :
    (∀ lat lng : ℝ, calculateBearing lat lng lat lng = 0) ∧
    (∀ alt heading : ℝ,
      relativeBearingOut (GeoPoint.mk TARGET.lat TARGET.lng alt) heading =
        normalize180 (0 - heading)) := by
  refine ⟨fun lat lng => calculateBearing_self lat lng, ?_⟩
  intro alt heading
  unfold relativeBearingOut
  have hb : calculateBearing (GeoPoint.mk TARGET.lat TARGET.lng alt).lat
      (GeoPoint.mk TARGET.lat TARGET.lng alt).lng TARGET.lat TARGET.lng = 0 :=
    calculateBearing_self TARGET.lat TARGET.lng
  rw [hb]

/-- Observer one degree of latitude due north of the target. -/
noncomputable def northOfTarget : GeoPoint :=
  { lat := 70.705561, lng := 18.832721, alt := 0 }

/-- Observer at exactly the target's coordinates. -/
noncomputable def atTargetLoc : GeoPoint :=
  { lat := 69.705561, lng := 18.832721, alt := 0 }

/-- Counterexample to C3: from one degree due north of the target the
engine emits relative bearing 180° (a valid, non-degenerate reading);
after the observer moves onto the target's exact coordinates the engine
emits relative bearing 0°, not the retained previous value 180°. -/
theorem spec_c3_counterexample :
    relativeBearingOut northOfTarget 0 = 180 ∧
      relativeBearingOut atTargetLoc 0 = 0 ∧ (180 : ℝ) ≠ 0 := by
  refine ⟨?_, ?_, by norm_num⟩
  · unfold relativeBearingOut
    have hb : calculateBearing northOfTarget.lat northOfTarget.lng
        TARGET.lat TARGET.lng = 180 := by
      show calculateBearing 70.705561 18.832721 69.705561 18.832721 = 180
      unfold calculateBearing
      rw [show (18.832721 - 18.832721 : ℝ) * Real.pi / 180 = 0 by ring,
        Real.sin_zero, Real.cos_zero, zero_mul, mul_one]
      have hx : Real.cos (70.705561 * Real.pi / 180) *
            Real.sin (69.705561 * Real.pi / 180) -
          Real.sin (70.705561 * Real.pi / 180) *
            Real.cos (69.705561 * Real.pi / 180) =
          Real.sin (69.705561 * Real.pi / 180 - 70.705561 * Real.pi / 180) := by
        rw [Real.sin_sub]
        ring
      rw [hx, show (69.705561 : ℝ) * Real.pi / 180 -
          70.705561 * Real.pi / 180 = -(Real.pi / 180) by ring,
        Real.sin_neg]
      have hs : 0 < Real.sin (Real.pi / 180) := by
        apply Real.sin_pos_of_pos_of_lt_pi
        · positivity
        · nlinarith [Real.pi_pos]
      rw [atan2_zero_neg _ (by linarith),
        show Real.pi * 180 / Real.pi = 180 by
          field_simp,
        show (180 : ℝ) + 360 = 540 by norm_num,
        jsModR_eval 540 1 (by norm_num) (by norm_num) (by norm_num)]
      norm_num
    rw [hb, show (180 : ℝ) - 0 = 180 by norm_num]
    unfold normalize180
    rw [norm180sub_of_le _ (by norm_num), norm180add_of_ge _ (by norm_num)]
  · unfold relativeBearingOut
    have hb : calculateBearing atTargetLoc.lat atTargetLoc.lng
        TARGET.lat TARGET.lng = 0 := by
      show calculateBearing 69.705561 18.832721 69.705561 18.832721 = 0
      exact calculateBearing_self _ _
    rw [hb, show (0 : ℝ) - 0 = 0 by norm_num]
    unfold normalize180
    rw [norm180sub_of_le _ (by norm_num), norm180add_of_ge _ (by norm_num)]

/-! ## Claims about the projector's state handling -/

/-- Claim C4 (amended, surviving half): the guard at line 445
(`if (!currentLocation || !destinationMarker) return;`) makes the
projection update a no-op whenever the observer position is unknown
(no fix yet, `currentLocation` still `null`) or the marker object does
not exist: the state — in particular the previously emitted marker
position — is returned unchanged. -/
theorem spec_c4_amended (s : AppState)
    (h : s.currentLocation = none ∨ s.hasMarker = false) :
    updateMarkerPosition s = s := by
  unfold updateMarkerPosition
  rcases h with h | h
  · rw [h]
  · rw [h]
    cases s.currentLocation <;> rfl

/-- A state before any position fix. -/
noncomputable def noFixState : AppState :=
  { currentLocation := none, compassHeading := 0, hasMarker := false,
    markerPos := { x := 0, y := 0, z := 0 } }

/-- The origin as an observer location. -/
noncomputable def locZero : GeoPoint := { lat := 0, lng := 0, alt := 0 }

/-- A state with a position fix but no marker object yet. -/
noncomputable def noMarkerState : AppState :=
  { currentLocation := some locZero, compassHeading := 0, hasMarker := false,
    markerPos := { x := 0, y := 0, z := 0 } }

/-- Witness for C4 (amended), covering both guard branches: the no-fix
state and the fix-but-no-marker state are both left unchanged. -/
theorem spec_c4_witness :
    updateMarkerPosition noFixState = noFixState ∧
      updateMarkerPosition noMarkerState = noMarkerState :=
  ⟨spec_c4_amended noFixState (Or.inl rfl),
   spec_c4_amended noMarkerState (Or.inr rfl)⟩

/-- A state that has a position fix and a marker object but has never
ingested an orientation sample: `compassHeading` still holds its
initial value 0 and the marker still sits at its default origin. -/
noncomputable def freshFixState : AppState :=
  { currentLocation := some locZero, compassHeading := 0, hasMarker := true,
    markerPos := { x := 0, y := 0, z := 0 } }

/-- Counterexample to C4: the code has no notion of an uninitialized
heading — `compassHeading` simply starts at 0 — so with a position fix
present but no orientation sample ever ingested, the projection update
does move the marker (it emits a placement computed from heading 0),
rather than performing no update. -/
theorem spec_c4_counterexample :
    updateMarkerPosition freshFixState ≠ freshFixState := by
  intro h
  have hx := congrArg (fun t => t.markerPos.x) h
  have hz := congrArg (fun t => t.markerPos.z) h
  simp only [updateMarkerPosition, freshFixState, rawMarkerVec] at hx hz
  have hs : Real.sin (relativeBearingOut locZero 0 * Real.pi / 180) = 0 := by
    linarith
  have hc : Real.cos (relativeBearingOut locZero 0 * Real.pi / 180) = 0 := by
    linarith
  have h1 :=
    Real.sin_sq_add_cos_sq (relativeBearingOut locZero 0 * Real.pi / 180)
  rw [hs, hc] at h1
  norm_num at h1

/-- Claim C7 (amended): with unchanged inputs a repeated projection
pass leaves the location and heading unchanged, hence recomputes the
identical pure `BearingResult`; but the emitted marker position is not
idempotent: the second pass moves each axis a further
`0.09 · (raw - previous)` beyond the first pass, so the two passes
agree only when the marker already sits at the raw placement. -/
theorem spec_c7_amended (s : AppState) (loc : GeoPoint)
    (hloc : s.currentLocation = some loc) (hm : s.hasMarker = true) :
    (updateMarkerPosition s).currentLocation = s.currentLocation ∧
    (updateMarkerPosition s).compassHeading = s.compassHeading ∧
    bearingResultOf loc (updateMarkerPosition s).compassHeading =
      bearingResultOf loc s.compassHeading ∧
    (updateMarkerPosition (updateMarkerPosition s)).markerPos.x -
        (updateMarkerPosition s).markerPos.x =
      ((rawMarkerVec loc s.compassHeading).x - s.markerPos.x) * 0.09 ∧
    (updateMarkerPosition (updateMarkerPosition s)).markerPos.y -
        (updateMarkerPosition s).markerPos.y =
      ((rawMarkerVec loc s.compassHeading).y - s.markerPos.y) * 0.09 ∧
    (updateMarkerPosition (updateMarkerPosition s)).markerPos.z -
        (updateMarkerPosition s).markerPos.z =
      ((rawMarkerVec loc s.compassHeading).z - s.markerPos.z) * 0.09 := by
  obtain ⟨ol, ch, hmk, mp⟩ := s
  obtain rfl : ol = some loc := hloc
  obtain rfl : hmk = true := hm
  refine ⟨rfl, rfl, rfl, ?_, ?_, ?_⟩ <;>
    · simp only [updateMarkerPosition]
      ring

/-- Witness for C7 (amended) at the fresh-fix state: the second pass
moves the marker's x coordinate by a further 9% of the original gap. -/
theorem spec_c7_witness :
    (updateMarkerPosition (updateMarkerPosition freshFixState)).markerPos.x -
        (updateMarkerPosition freshFixState).markerPos.x =
      ((rawMarkerVec locZero freshFixState.compassHeading).x -
        freshFixState.markerPos.x) * 0.09 :=
  (spec_c7_amended freshFixState locZero rfl rfl).2.2.2.1

/-- Counterexample to C7: invoking the projection twice on the same
state does not return identical results — the marker position after
the second pass differs from the position after the first. -/
theorem spec_c7_counterexample :
    updateMarkerPosition (updateMarkerPosition freshFixState) ≠
      updateMarkerPosition freshFixState := by
  intro h
  have hx := congrArg (fun t => t.markerPos.x) h
  have hz := congrArg (fun t => t.markerPos.z) h
  simp only [updateMarkerPosition, freshFixState, rawMarkerVec] at hx hz
  have hs : Real.sin (relativeBearingOut locZero 0 * Real.pi / 180) = 0 := by
    linarith
  have hc : Real.cos (relativeBearingOut locZero 0 * Real.pi / 180) = 0 := by
    linarith
  have h1 :=
    Real.sin_sq_add_cos_sq (relativeBearingOut locZero 0 * Real.pi / 180)
  rw [hs, hc] at h1
  norm_num at h1
